import Mathlib

/-!
Shallow embedding of the todo-list MCP backend (src/src/index.ts).

The server keeps a single in-memory store: a list of todo records plus a
numeric counter used to mint identifiers.  Five tool handlers (get_todos,
add_todo, toggle_todo, delete_todo, clear_completed) read or mutate it
synchronously.  A separate widget-asset resolver scrapes hashed asset
filenames from a remote index page and caches them with a 60s TTL.

Mutation of module-level state is modelled by explicit state passing:
each handler becomes a pure function from the store state (and the inputs
the runtime supplies, such as the current timestamp) to the new state and
the structured response it builds.
-/

/-- The Todo record, from the `interface Todo` declaration in index.ts.
`createdAt` is `new Date().toISOString()` in the source; the handler
receives it here as an explicit argument (an opaque timestamp string). -/
structure Todo where
  id : String
  title : String
  completed : Bool
  createdAt : String
deriving DecidableEq, Repr

/-- The module-level mutable state: `let todos: Todo[] = []` and
`let nextId = 1`. -/
structure StoreState where
  todos : List Todo
  nextId : Nat
deriving DecidableEq, Repr

/-- The state at process start: empty list, counter 1. -/
def initialState : StoreState := { todos := [], nextId := 1 }

/-- The not-found message built by the toggle_todo and delete_todo
handlers: `Todo with ID "id" not found.` -/
def notFoundMsg (id : String) : String :=
  "Todo with ID \"" ++ id ++ "\" not found."

/-- Response of the get_todos handler: the human-readable text line, the
bounded preview (`todos.slice(0, 10)`), the summary string, and the stats
object placed in `_meta.fullData`. -/
structure GetTodosResult where
  text : String
  todosPreview : List Todo
  summary : String
  statsTotal : Nat
  statsCompleted : Nat
  statsPending : Nat
deriving DecidableEq, Repr

/-- get_todos handler (index.ts lines 120-137): counts completed and
pending records and reports them together with a preview of the list. -/
def get_todos (s : StoreState) : GetTodosResult :=
  let completedCount := (s.todos.filter (fun t => t.completed)).length
  let pendingCount := s.todos.length - completedCount
  { text := "You have " ++ toString s.todos.length ++ " todo(s): " ++
      toString completedCount ++ " completed, " ++ toString pendingCount ++
      " pending. View and manage them in the component below."
  , todosPreview := s.todos.take 10
  , summary := toString s.todos.length ++ " total, " ++ toString completedCount ++
      " completed, " ++ toString pendingCount ++ " pending"
  , statsTotal := s.todos.length
  , statsCompleted := completedCount
  , statsPending := pendingCount }

/-- Response of the add_todo handler: text line, the created record, and
the preview. -/
structure AddTodoResult where
  text : String
  addedTodo : Todo
  todosPreview : List Todo
deriving DecidableEq, Repr

/-- add_todo handler (index.ts lines 163-186): mints the id
`String(nextId++)`, appends the new record, and returns it.  The zod
input schema is `title: z.string()`, modelled separately below as
`zodParseTitle`; `createdAt` is the ISO timestamp the runtime produces. -/
def add_todo (title : String) (createdAt : String) (s : StoreState) :
    StoreState × AddTodoResult :=
  let newTodo : Todo :=
    { id := toString s.nextId, title := title, completed := false, createdAt := createdAt }
  let newTodos := s.todos ++ [newTodo]
  ({ todos := newTodos, nextId := s.nextId + 1 },
   { text := "Added todo: \"" ++ title ++ "\". You now have " ++
       toString newTodos.length ++ " todo(s)."
   , addedTodo := newTodo
   , todosPreview := newTodos.take 10 })

/-- A minimal JSON value, enough to state what the zod schema
`{ title: z.string() }` accepts. -/
inductive JsonValue where
  | str (s : String)
  | num (n : Int)
  | boolean (b : Bool)
  | null
deriving DecidableEq, Repr

/-- The zod schema of add_todo (index.ts lines 146-148): `z.string()`
requires the field to be present and to be a string; it carries no
`.min(1)` or nonempty refinement, so every string — the empty string
included — parses successfully. -/
def zodParseTitle : Option JsonValue → Except String String
  | some (JsonValue.str s) => Except.ok s
  | some _ => Except.error "invalid_type"
  | none => Except.error "required"

/-- The add_todo tool as the MCP runtime drives it: validate the raw
input against the zod schema, then run the handler.  Schema failure
never reaches the handler. -/
def add_todo_tool (input : Option JsonValue) (createdAt : String) (s : StoreState) :
    StoreState × Except String AddTodoResult :=
  match zodParseTitle input with
  | Except.error e => (s, Except.error e)
  | Except.ok title =>
      let (s', r) := add_todo title createdAt s
      (s', Except.ok r)

/-- Response of the toggle_todo handler.  On the not-found path the
source returns only the text content with `isError: true` and no
structured payload. -/
structure ToggleTodoResult where
  text : String
  isError : Bool
  toggledTodo : Option Todo
  todosPreview : List Todo
deriving DecidableEq, Repr

/-- In-place flip of the first record whose id matches, as performed by
`todos.find(t => t.id === id)` followed by
`todo.completed = !todo.completed` (mutating the found element). -/
def toggleList (id : String) : List Todo → List Todo
  | [] => []
  | t :: ts =>
      if t.id == id then { t with completed := !t.completed } :: ts
      else t :: toggleList id ts

/-- toggle_todo handler (index.ts lines 212-240): find the record by id;
if absent return an isError text result naming the id; otherwise flip
`completed` on that record and report it. -/
def toggle_todo (id : String) (s : StoreState) : StoreState × ToggleTodoResult :=
  match s.todos.find? (fun t => t.id == id) with
  | none =>
      (s, { text := notFoundMsg id, isError := true, toggledTodo := none, todosPreview := [] })
  | some t =>
      let t' : Todo := { t with completed := !t.completed }
      let newTodos := toggleList id s.todos
      ({ todos := newTodos, nextId := s.nextId },
       { text := "Marked \"" ++ t.title ++ "\" as " ++
           (if t'.completed then "completed" else "pending") ++ "."
       , isError := false
       , toggledTodo := some t'
       , todosPreview := newTodos.take 10 })

/-- Response of the delete_todo handler. -/
structure DeleteTodoResult where
  text : String
  isError : Bool
  deletedTodo : Option Todo
  todosPreview : List Todo
deriving DecidableEq, Repr

/-- Removal of the first record whose id matches, as performed by
`todos.findIndex(t => t.id === id)` followed by `todos.splice(todoIndex, 1)`. -/
def deleteList (id : String) : List Todo → List Todo
  | [] => []
  | t :: ts => if t.id == id then ts else t :: deleteList id ts

/-- delete_todo handler (index.ts lines 266-295): find the record's index
by id; if absent return an isError text result naming the id; otherwise
splice it out and report it. -/
def delete_todo (id : String) (s : StoreState) : StoreState × DeleteTodoResult :=
  match s.todos.find? (fun t => t.id == id) with
  | none =>
      (s, { text := notFoundMsg id, isError := true, deletedTodo := none, todosPreview := [] })
  | some t =>
      let newTodos := deleteList id s.todos
      ({ todos := newTodos, nextId := s.nextId },
       { text := "Deleted todo: \"" ++ t.title ++ "\". You now have " ++
           toString newTodos.length ++ " todo(s)."
       , isError := false
       , deletedTodo := some t
       , todosPreview := newTodos.take 10 })

/-- Response of the clear_completed handler. -/
structure ClearCompletedResult where
  text : String
  clearedCount : Nat
  todosPreview : List Todo
deriving DecidableEq, Repr

/-- clear_completed handler (index.ts lines 319-336): count the completed
records, keep only the uncompleted ones, report the count. -/
def clear_completed (s : StoreState) : StoreState × ClearCompletedResult :=
  let completedCount := (s.todos.filter (fun t => t.completed)).length
  let newTodos := s.todos.filter (fun t => !t.completed)
  ({ todos := newTodos, nextId := s.nextId },
   { text := "Cleared " ++ toString completedCount ++
       " completed todo(s). You now have " ++ toString newTodos.length ++
       " todo(s) remaining."
   , clearedCount := completedCount
   , todosPreview := newTodos.take 10 })

/-- One tool invocation that can change the store. -/
inductive Op where
  | add (title : String) (createdAt : String)
  | toggle (id : String)
  | del (id : String)
  | clear
deriving DecidableEq, Repr

/-- Run a sequence of mutating tool invocations from a given state,
collecting the identifiers assigned by the add_todo calls in order. -/
def runOps : List Op → StoreState → StoreState × List String
  | [], s => (s, [])
  | Op.add title ts :: ops, s =>
      ((runOps ops (add_todo title ts s).1).1,
       (add_todo title ts s).2.addedTodo.id :: (runOps ops (add_todo title ts s).1).2)
  | Op.toggle id :: ops, s => runOps ops (toggle_todo id s).1
  | Op.del id :: ops, s => runOps ops (delete_todo id s).1
  | Op.clear :: ops, s => runOps ops (clear_completed s).1

/-- Number of add_todo invocations in a sequence. -/
def countAdds : List Op → Nat
  | [] => 0
  | Op.add _ _ :: ops => countAdds ops + 1
  | Op.toggle _ :: ops => countAdds ops
  | Op.del _ :: ops => countAdds ops
  | Op.clear :: ops => countAdds ops

/-!
Widget asset resolver (index.ts lines 367-434).

Module state: `let widgetFiles = { js: '', css: '' }` and `let lastFetch = 0`,
with `CACHE_TTL = 60000` ms.  `Date.now()` is passed in as a `Nat` argument
(`now ≥ lastFetch` in every real execution, and Nat truncated subtraction
agrees with JS signed subtraction on the comparison `now - lastFetch < TTL`
even when it does not hold).  The network is an oracle argument: the index
fetch is an `Except Unit String` (the fetched HTML text, or a thrown error),
and each handler's asset fetch is a function from filename to such a result.
Every resolver function additionally returns a `Bool` recording whether it
issued the discovery fetch.
-/

/-- The cached filenames: `let widgetFiles = { js: '', css: '' }`. -/
structure WidgetFilesCache where
  js : String
  css : String
deriving DecidableEq, Repr

/-- The full resolver state: cached filenames plus `lastFetch`. -/
structure CacheState where
  widgetFiles : WidgetFilesCache
  lastFetch : Nat
deriving DecidableEq, Repr

/-- `const CACHE_TTL = 60000; // 1 minute` -/
def CACHE_TTL : Nat := 60000

/-- The resolver state at process start. -/
def initialCache : CacheState := { widgetFiles := { js := "", css := "" }, lastFetch := 0 }

/-- Lowercase-hex character class `[a-f0-9]` of the discovery regexes. -/
def isHexDigitLower (c : Char) : Bool :=
  (decide ('a' ≤ c) && decide (c ≤ 'f')) || (decide ('0' ≤ c) && decide (c ≤ '9'))

/-- Consume an exact literal from the front of the character stream;
`none` when the stream does not start with it. -/
def dropLit : List Char → List Char → Option (List Char)
  | [], rest => some rest
  | _ :: _, [] => none
  | p :: ps, c :: cs => if c = p then dropLit ps cs else none

/-- Split off the maximal leading run of lowercase-hex characters
(the greedy `[a-f0-9]+`). -/
def hexRunSplit : List Char → List Char × List Char
  | [] => ([], [])
  | c :: cs =>
      if isHexDigitLower c then
        let (run, rest) := hexRunSplit cs
        (c :: run, rest)
      else ([], c :: cs)

/-- Try to match one of the discovery regexes at the current position.
`lit` is the leading literal (`src="/widget` for JS, `href="/widget` for
CSS) and `ext` the extension (`.js` / `.css`); the pattern is
`lit(-[a-f0-9]+)?ext"` with the capture group starting at `widget`.
Because `.` is not a hex character, the greedy hex run needs no further
backtracking: only the maximal run can be followed by the extension. -/
def matchWidgetAt (lit ext : List Char) (l : List Char) : Option (List Char) :=
  match dropLit lit l with
  | none => none
  | some rest =>
      let noHash : Option (List Char) :=
        match dropLit (ext ++ ['\"']) rest with
        | some _ => some (String.toList "widget" ++ ext)
        | none => none
      match rest with
      | '-' :: r =>
          let (run, rest2) := hexRunSplit r
          if run.isEmpty then noHash
          else
            match dropLit (ext ++ ['\"']) rest2 with
            | some _ => some (String.toList "widget" ++ '-' :: run ++ ext)
            | none => noHash
      | _ => noHash

/-- First match of the discovery pattern anywhere in the text
(JS `String.prototype.match` with a non-global regex). -/
def findWidgetRef (lit ext : List Char) : List Char → Option (List Char)
  | [] => none
  | c :: cs =>
      match matchWidgetAt lit ext (c :: cs) with
      | some cap => some cap
      | none => findWidgetRef lit ext cs

/-- `html.match(/src="\/(widget(?:-[a-f0-9]+)?\.js)"/)`, returning the
captured filename. -/
def jsFileMatch (html : String) : Option String :=
  (findWidgetRef (String.toList "src=\"/widget") (String.toList ".js") html.toList).map
    (fun cs => String.mk cs)

/-- `html.match(/href="\/(widget(?:-[a-f0-9]+)?\.css)"/)`, returning the
captured filename. -/
def cssFileMatch (html : String) : Option String :=
  (findWidgetRef (String.toList "href=\"/widget") (String.toList ".css") html.toList).map
    (fun cs => String.mk cs)

/-- discoverWidgetFiles (index.ts lines 373-398).  If both cached
filenames are non-empty (JS truthiness of the strings) and the cache age
is under the TTL, return the cache without fetching.  Otherwise fetch the
index page: on a throw the catch block leaves all state untouched; on
success each regex that matches overwrites its filename (a missed match
keeps the previous value) and `lastFetch` is set to `now` unconditionally.
Returns (new state, returned filenames, whether the fetch was issued). -/
def discoverWidgetFiles (now : Nat) (fetchIndexHtml : Except Unit String)
    (c : CacheState) : CacheState × WidgetFilesCache × Bool :=
  if c.widgetFiles.js ≠ "" ∧ c.widgetFiles.css ≠ "" ∧ now - c.lastFetch < CACHE_TTL then
    (c, c.widgetFiles, false)
  else
    match fetchIndexHtml with
    | Except.error _ => (c, c.widgetFiles, true)
    | Except.ok html =>
        let js := match jsFileMatch html with
          | some f => f
          | none => c.widgetFiles.js
        let css := match cssFileMatch html with
          | some f => f
          | none => c.widgetFiles.css
        ({ widgetFiles := { js := js, css := css }, lastFetch := now },
         { js := js, css := css }, true)

/-- An HTTP response as the widget routes build it: status code, the
Content-Type header when the handler sets one, and the body text. -/
structure HttpResponse where
  status : Nat
  contentType : Option String
  body : String
deriving DecidableEq, Repr

/-- GET /widget.js handler (index.ts lines 419-434): run discovery; with
no known JS filename answer 404 with a JS-comment placeholder; otherwise
fetch the asset and answer 200 with its bytes, or 500 with a JS-comment
placeholder when the fetch throws. -/
def widgetJsRoute (now : Nat) (fetchIndexHtml : Except Unit String)
    (fetchAsset : String → Except Unit String) (c : CacheState) :
    CacheState × HttpResponse × Bool :=
  let d := discoverWidgetFiles now fetchIndexHtml c
  let files := d.2.1
  if files.js = "" then
    (d.1, { status := 404, contentType := none, body := "// Widget JS not found" }, d.2.2)
  else
    match fetchAsset files.js with
    | Except.ok body =>
        (d.1, { status := 200, contentType := some "application/javascript", body := body }, d.2.2)
    | Except.error _ =>
        (d.1, { status := 500, contentType := none, body := "// Error loading widget JS" }, d.2.2)

/-- GET /widget.css handler (index.ts lines 401-416): as for /widget.js,
with CSS-comment placeholders and Content-Type text/css. -/
def widgetCssRoute (now : Nat) (fetchIndexHtml : Except Unit String)
    (fetchAsset : String → Except Unit String) (c : CacheState) :
    CacheState × HttpResponse × Bool :=
  let d := discoverWidgetFiles now fetchIndexHtml c
  let files := d.2.1
  if files.css = "" then
    (d.1, { status := 404, contentType := none, body := "/* Widget CSS not found */" }, d.2.2)
  else
    match fetchAsset files.css with
    | Except.ok body =>
        (d.1, { status := 200, contentType := some "text/css", body := body }, d.2.2)
    | Except.error _ =>
        (d.1, { status := 500, contentType := none, body := "/* Error loading widget CSS */" }, d.2.2)

/-! Helper lemmas about the store operations. -/

lemma toggle_todo_nextId (id : String) (s : StoreState) :
    (toggle_todo id s).1.nextId = s.nextId := by
  rcases hf : s.todos.find? (fun t => t.id == id) with _ | t <;> simp [toggle_todo, hf]

lemma delete_todo_nextId (id : String) (s : StoreState) :
    (delete_todo id s).1.nextId = s.nextId := by
  rcases hf : s.todos.find? (fun t => t.id == id) with _ | t <;> simp [delete_todo, hf]

lemma clear_completed_nextId (s : StoreState) :
    (clear_completed s).1.nextId = s.nextId := rfl

lemma range'_cons (s n : Nat) : List.range' s (n + 1) = s :: List.range' (s + 1) n := rfl

lemma runOps_ids (ops : List Op) : ∀ s : StoreState,
    (runOps ops s).2 = (List.range' s.nextId (countAdds ops)).map (fun n => toString n) := by
  induction ops with
  | nil => intro s; rfl
  | cons op ops ih =>
      intro s
      cases op with
      | add title ts =>
          have h1 : (add_todo title ts s).1.nextId = s.nextId + 1 := rfl
          have h2 : (add_todo title ts s).2.addedTodo.id = toString s.nextId := rfl
          simp only [runOps, countAdds, ih, h1, h2, range'_cons, List.map_cons]
      | toggle id => simp only [runOps, countAdds, ih, toggle_todo_nextId]
      | del id => simp only [runOps, countAdds, ih, delete_todo_nextId]
      | clear => simp only [runOps, countAdds, ih, clear_completed_nextId]

/-- C1: starting from the initial empty store, running any sequence of
tool invocations assigns to the created todos exactly the decimal
renderings of 1, 2, ..., k (k the number of add_todo calls), in order:
the identifiers are strictly increasing integers rendered as strings,
start at "1", and are never reused even after deletions, because the
counter only ever increments. -/
theorem C1_add_ids_strictly_increasing (ops : List Op) :
    (runOps ops initialState).2 =
      (List.range' 1 (countAdds ops)).map (fun n => toString n) :=
  runOps_ids ops initialState

/-- C2: toggling or deleting an identifier that no record carries yields
the isError-flagged text result whose message names the missing
identifier, and returns the store state unchanged (same records, same
order, same counter). -/
theorem C2_unknown_id_soft_error (id : String) (s : StoreState)
    (h : ∀ t ∈ s.todos, t.id ≠ id) :
    toggle_todo id s =
      (s, { text := notFoundMsg id, isError := true, toggledTodo := none, todosPreview := [] }) ∧
    delete_todo id s =
      (s, { text := notFoundMsg id, isError := true, deletedTodo := none, todosPreview := [] }) ∧
    notFoundMsg id = "Todo with ID \"" ++ id ++ "\" not found." := by
  have hf : s.todos.find? (fun t => t.id == id) = none := by
    rw [List.find?_eq_none]
    intro t ht
    simpa using h t ht
  refine ⟨?_, ?_, rfl⟩ <;> simp [toggle_todo, delete_todo, hf]

/-- A concrete store used by the witnesses. -/
def sampleStore : StoreState :=
  { todos := [{ id := "1", title := "Buy milk", completed := false, createdAt := "2026-01-01" }],
    nextId := 2 }

/-- Witness for C2 at a concrete input: the store holds only id "1", and
toggling/deleting id "7" soft-fails and changes nothing. -/
theorem C2_unknown_id_soft_error_witness :
    (∀ t ∈ sampleStore.todos, t.id ≠ "7") ∧
    (toggle_todo "7" sampleStore =
      (sampleStore,
       { text := notFoundMsg "7", isError := true, toggledTodo := none, todosPreview := [] }) ∧
     delete_todo "7" sampleStore =
      (sampleStore,
       { text := notFoundMsg "7", isError := true, deletedTodo := none, todosPreview := [] }) ∧
     notFoundMsg "7" = "Todo with ID \"7\" not found.") :=
  ⟨by decide, C2_unknown_id_soft_error "7" sampleStore (by decide)⟩

lemma filter_not_completed_idem (l : List Todo) :
    (l.filter (fun t => !t.completed)).filter (fun t => !t.completed) =
      l.filter (fun t => !t.completed) := by
  induction l with
  | nil => rfl
  | cons t ts ih => cases hc : t.completed <;> simp [List.filter_cons, hc, ih]

lemma filter_completed_of_cleared (l : List Todo) :
    (l.filter (fun t => !t.completed)).filter (fun t => t.completed) = [] := by
  induction l with
  | nil => rfl
  | cons t ts ih => cases hc : t.completed <;> simp [List.filter_cons, hc, ih]

/-- C3: clear_completed keeps exactly the records with completed == false
(in their original relative order, which is what filtering the original
list expresses), leaves the id counter alone, reports as clearedCount the
number of completed records, and is idempotent: an immediate second call
leaves the state untouched and reports 0. -/
theorem C3_clear_completed_exact_and_idempotent (s : StoreState) :
    (clear_completed s).1.todos = s.todos.filter (fun t => !t.completed) ∧
    (clear_completed s).1.nextId = s.nextId ∧
    (clear_completed s).2.clearedCount = (s.todos.filter (fun t => t.completed)).length ∧
    (clear_completed (clear_completed s).1).1 = (clear_completed s).1 ∧
    (clear_completed (clear_completed s).1).2.clearedCount = 0 := by
  refine ⟨rfl, rfl, rfl, ?_, ?_⟩
  · simp [clear_completed, filter_not_completed_idem]
  · simp [clear_completed, filter_completed_of_cleared]

/-- C5: the statistics built by the get_todos handler always reconcile:
total is the number of records, completed the number of completed
records, and pending + completed = total. -/
theorem C5_stats_reconcile (s : StoreState) :
    (get_todos s).statsTotal = s.todos.length ∧
    (get_todos s).statsCompleted = (s.todos.filter (fun t => t.completed)).length ∧
    (get_todos s).statsPending + (get_todos s).statsCompleted = (get_todos s).statsTotal := by
  refine ⟨rfl, rfl, ?_⟩
  have hle : (s.todos.filter (fun t => t.completed)).length ≤ s.todos.length :=
    List.length_filter_le _ _
  simpa [get_todos] using Nat.sub_add_cancel hle

lemma toggleList_toggleList (id : String) (l : List Todo) :
    toggleList id (toggleList id l) = l := by
  induction l with
  | nil => rfl
  | cons t ts ih =>
      by_cases hc : (t.id == id) = true
      · cases t with
        | mk i ti c ca => simp [toggleList, hc] at *
      · simp [toggleList, hc, ih]

lemma find?_toggleList (id : String) (l : List Todo) (t : Todo)
    (h : l.find? (fun u => u.id == id) = some t) :
    (toggleList id l).find? (fun u => u.id == id) =
      some { t with completed := !t.completed } := by
  induction l with
  | nil => simp at h
  | cons u us ih =>
      by_cases hc : (u.id == id) = true
      · simp only [List.find?_cons, hc] at h
        obtain rfl : u = t := by injection h
        simp [toggleList, hc, List.find?_cons]
      · have hcf : (u.id == id) = false := by simpa using hc
        simp only [List.find?_cons, hcf] at h
        simp only [toggleList, if_neg hc]
        simp only [List.find?_cons, hcf]
        exact ih h

lemma toggleList_decomp (id : String) (l : List Todo)
    (h : ∃ t ∈ l, t.id = id) :
    ∃ l₁ t l₂, l = l₁ ++ t :: l₂ ∧ (∀ u ∈ l₁, u.id ≠ id) ∧ t.id = id ∧
      toggleList id l = l₁ ++ { t with completed := !t.completed } :: l₂ := by
  induction l with
  | nil => simp at h
  | cons u us ih =>
      by_cases hc : u.id = id
      · exact ⟨[], u, us, rfl, by simp, hc, by simp [toggleList, hc]⟩
      · have h' : ∃ t ∈ us, t.id = id := by
          rcases h with ⟨t, ht, hid⟩
          rcases List.mem_cons.1 ht with rfl | hmem
          · exact absurd hid hc
          · exact ⟨t, hmem, hid⟩
        obtain ⟨l₁, t, l₂, he, hni, hid, htg⟩ := ih h'
        refine ⟨u :: l₁, t, l₂, by simp [he], ?_, hid, ?_⟩
        · intro v hv
          rcases List.mem_cons.1 hv with rfl | hmem
          · exact hc
          · exact hni v hmem
        · simp [toggleList, hc, htg]

/-- C4: when some record carries the requested identifier, the store
splits as l₁ ++ t :: l₂ around the first such record t, a single
toggle_todo replaces exactly t by its completed-flipped copy (every other
record and the counter untouched), and applying toggle_todo twice returns
the store to exactly its starting state. -/
theorem C4_toggle_involution (id : String) (s : StoreState)
    (h : ∃ t ∈ s.todos, t.id = id) :
    (toggle_todo id (toggle_todo id s).1).1 = s ∧
    (∃ l₁ t l₂, s.todos = l₁ ++ t :: l₂ ∧ (∀ u ∈ l₁, u.id ≠ id) ∧ t.id = id ∧
      (toggle_todo id s).1.todos = l₁ ++ { t with completed := !t.completed } :: l₂) := by
  have hs : (s.todos.find? (fun u => u.id == id)).isSome :=
    List.find?_isSome.2 (by simpa using h)
  obtain ⟨t₀, ht₀⟩ := Option.isSome_iff_exists.1 hs
  have h1 : (toggle_todo id s).1 = { todos := toggleList id s.todos, nextId := s.nextId } := by
    simp [toggle_todo, ht₀]
  constructor
  · have ht₁ := find?_toggleList id s.todos t₀ ht₀
    rw [h1]
    simp [toggle_todo, ht₁, toggleList_toggleList]
  · obtain ⟨l₁, t, l₂, he, hni, hid, htg⟩ := toggleList_decomp id s.todos h
    exact ⟨l₁, t, l₂, he, hni, hid, by rw [h1]; exact htg⟩

/-- A two-record store used by the C4 witness. -/
def sampleStore2 : StoreState :=
  { todos := [{ id := "1", title := "Buy milk", completed := false, createdAt := "2026-01-01" },
              { id := "2", title := "Walk dog", completed := true, createdAt := "2026-01-02" }],
    nextId := 3 }

/-- Witness for C4 at a concrete input: id "2" is present in
sampleStore2, and the involution/single-flip decomposition holds there. -/
theorem C4_toggle_involution_witness :
    (∃ t ∈ sampleStore2.todos, t.id = "2") ∧
    ((toggle_todo "2" (toggle_todo "2" sampleStore2).1).1 = sampleStore2 ∧
     (∃ l₁ t l₂, sampleStore2.todos = l₁ ++ t :: l₂ ∧ (∀ u ∈ l₁, u.id ≠ "2") ∧ t.id = "2" ∧
       (toggle_todo "2" sampleStore2).1.todos =
         l₁ ++ { t with completed := !t.completed } :: l₂)) :=
  ⟨by decide, C4_toggle_involution "2" sampleStore2 (by decide)⟩

/-- C6 counterexample: the add tool does not fail on an empty title.  At
the concrete input title = "" the zod schema (a bare z.string()) accepts
the value and the handler creates a todo whose title is the empty string,
so add does create an empty-titled todo and signals no ValidationError. -/
theorem C6_counterexample_empty_title_accepted :
    add_todo_tool (some (JsonValue.str "")) "2026-01-01" initialState =
      ({ todos := [{ id := "1", title := "", completed := false, createdAt := "2026-01-01" }],
         nextId := 2 },
       Except.ok
         { text := "Added todo: \"\". You now have 1 todo(s)."
         , addedTodo := { id := "1", title := "", completed := false, createdAt := "2026-01-01" }
         , todosPreview :=
             [{ id := "1", title := "", completed := false, createdAt := "2026-01-01" }] }) := by
  rfl

/-- C6 amended: the input schema of add_todo only requires the title to
be a string — the empty string passes validation, the handler runs, and
the created todo's title is exactly the supplied string (empty included);
a validation error arises precisely when the input is missing or not a
string. -/
theorem C6_amended_add_accepts_any_string_title (title createdAt : String) (s : StoreState) :
    zodParseTitle (some (JsonValue.str title)) = Except.ok title ∧
    add_todo_tool (some (JsonValue.str title)) createdAt s =
      ((add_todo title createdAt s).1, Except.ok (add_todo title createdAt s).2) ∧
    (add_todo title createdAt s).2.addedTodo.title = title ∧
    (∀ input : Option JsonValue,
      (∃ e, (add_todo_tool input createdAt s).2 = Except.error e) ↔
        ∀ u : String, input ≠ some (JsonValue.str u)) := by
  refine ⟨rfl, rfl, rfl, ?_⟩
  intro input
  constructor
  · rintro ⟨e, he⟩ u rfl
    simp [add_todo_tool, zodParseTitle] at he
  · intro hns
    rcases input with _ | v
    · exact ⟨"required", rfl⟩
    · rcases v with u | n | b | _
      · exact absurd rfl (hns u)
      · exact ⟨"invalid_type", rfl⟩
      · exact ⟨"invalid_type", rfl⟩
      · exact ⟨"invalid_type", rfl⟩

/-- Fresh-cache hit of discoverWidgetFiles: both filenames non-empty and
age under TTL serve straight from the cache with no fetch. -/
lemma discover_cache_hit (now : Nat) (f : Except Unit String) (c : CacheState)
    (hjs : c.widgetFiles.js ≠ "") (hcss : c.widgetFiles.css ≠ "")
    (hfresh : now - c.lastFetch < CACHE_TTL) :
    discoverWidgetFiles now f c = (c, c.widgetFiles, false) := by
  simp [discoverWidgetFiles, hjs, hcss, hfresh]

/-- C7: in any cache state with both discovered filenames non-empty and
cache age strictly below the 60-second TTL, discoverWidgetFiles issues no
network request (fetched flag false, the fetch oracle is never consulted)
and returns the cache and its filenames unchanged. -/
theorem C7_fresh_cache_no_fetch (now : Nat) (f : Except Unit String) (c : CacheState)
    (hjs : c.widgetFiles.js ≠ "") (hcss : c.widgetFiles.css ≠ "")
    (hfresh : now - c.lastFetch < CACHE_TTL) :
    discoverWidgetFiles now f c = (c, c.widgetFiles, false) :=
  discover_cache_hit now f c hjs hcss hfresh

/-- A concrete cache with both filenames discovered at time 100000. -/
def freshCache : CacheState :=
  { widgetFiles := { js := "widget-a1.js", css := "widget-b2.css" }, lastFetch := 100000 }

/-- Witness for C7 at a concrete input: one millisecond after discovery
the cache is served as-is, with no fetch, whatever the network would do. -/
theorem C7_fresh_cache_no_fetch_witness :
    (freshCache.widgetFiles.js ≠ "" ∧ freshCache.widgetFiles.css ≠ "" ∧
     100001 - freshCache.lastFetch < CACHE_TTL) ∧
    discoverWidgetFiles 100001 (Except.error ()) freshCache =
      (freshCache, freshCache.widgetFiles, false) :=
  ⟨by decide,
   C7_fresh_cache_no_fetch 100001 (Except.error ()) freshCache (by decide) (by decide) (by decide)⟩

/-- C9: the freshness test is joint, not per asset class: whenever exactly
one of the two cached filenames is empty, discoverWidgetFiles issues the
index fetch, at every clock value — even when the last fetch was under a
TTL ago. -/
theorem C9_one_empty_always_fetches (now : Nat) (f : Except Unit String) (c : CacheState)
    (h : (c.widgetFiles.js = "" ∧ c.widgetFiles.css ≠ "") ∨
         (c.widgetFiles.js ≠ "" ∧ c.widgetFiles.css = "")) :
    (discoverWidgetFiles now f c).2.2 = true := by
  have hcond : ¬(c.widgetFiles.js ≠ "" ∧ c.widgetFiles.css ≠ "" ∧
      now - c.lastFetch < CACHE_TTL) := by
    rcases h with ⟨h1, _⟩ | ⟨_, h2⟩
    · rintro ⟨a, _, _⟩; exact a h1
    · rintro ⟨_, b, _⟩; exact b h2
  unfold discoverWidgetFiles
  rw [if_neg hcond]
  cases f <;> rfl

/-- A cache holding a CSS filename but no JS filename, freshly stamped. -/
def halfCache : CacheState :=
  { widgetFiles := { js := "", css := "widget-b2.css" }, lastFetch := 100000 }

/-- Witness for C9 at a concrete input: with only the CSS filename cached,
a call at age 1ms (well under the TTL) still issues the fetch. -/
theorem C9_one_empty_always_fetches_witness :
    ((halfCache.widgetFiles.js = "" ∧ halfCache.widgetFiles.css ≠ "") ∨
     (halfCache.widgetFiles.js ≠ "" ∧ halfCache.widgetFiles.css = "")) ∧
    (discoverWidgetFiles 100001 (Except.error ()) halfCache).2.2 = true :=
  ⟨by decide, C9_one_empty_always_fetches 100001 (Except.error ()) halfCache (by decide)⟩

/-- C10: when the index fetch succeeds but neither regex matches, the
cache keeps the old filenames yet still advances lastFetch to now, so a
later call within a full further TTL (both filenames being non-empty)
serves those stale filenames from the cache without fetching. -/
theorem C10_lastFetch_advances_without_match
    (now now' : Nat) (html : String) (f' : Except Unit String) (c : CacheState)
    (hjs : c.widgetFiles.js ≠ "") (hcss : c.widgetFiles.css ≠ "")
    (hstale : CACHE_TTL ≤ now - c.lastFetch)
    (hnojs : jsFileMatch html = none) (hnocss : cssFileMatch html = none)
    (hfresh' : now' - now < CACHE_TTL) :
    (discoverWidgetFiles now (Except.ok html) c).1 =
      { widgetFiles := c.widgetFiles, lastFetch := now } ∧
    discoverWidgetFiles now' f' (discoverWidgetFiles now (Except.ok html) c).1 =
      ({ widgetFiles := c.widgetFiles, lastFetch := now }, c.widgetFiles, false) := by
  have hcond : ¬(c.widgetFiles.js ≠ "" ∧ c.widgetFiles.css ≠ "" ∧
      now - c.lastFetch < CACHE_TTL) := by
    rintro ⟨_, _, hlt⟩
    omega
  have h1 : (discoverWidgetFiles now (Except.ok html) c).1 =
      { widgetFiles := c.widgetFiles, lastFetch := now } := by
    unfold discoverWidgetFiles
    rw [if_neg hcond]
    simp [hnojs, hnocss]
  refine ⟨h1, ?_⟩
  rw [h1]
  exact discover_cache_hit now' f' _ hjs hcss (by simpa using hfresh')

/-- A cache whose filenames were discovered at time 0 and are now stale. -/
def staleCache : CacheState :=
  { widgetFiles := { js := "widget-old1.js", css := "widget-old2.css" }, lastFetch := 0 }

/-- Witness for C10 at a concrete input: at time 60000 (exactly TTL) a
rediscovery against an index page with no asset references re-stamps the
cache, and a call at 119999 is then served from the cache untouched. -/
theorem C10_lastFetch_advances_without_match_witness :
    (staleCache.widgetFiles.js ≠ "" ∧ staleCache.widgetFiles.css ≠ "" ∧
     CACHE_TTL ≤ 60000 - staleCache.lastFetch ∧
     jsFileMatch "<html></html>" = none ∧ cssFileMatch "<html></html>" = none ∧
     119999 - 60000 < CACHE_TTL) ∧
    ((discoverWidgetFiles 60000 (Except.ok "<html></html>") staleCache).1 =
      { widgetFiles := staleCache.widgetFiles, lastFetch := 60000 } ∧
     discoverWidgetFiles 119999 (Except.error ())
         (discoverWidgetFiles 60000 (Except.ok "<html></html>") staleCache).1 =
       ({ widgetFiles := staleCache.widgetFiles, lastFetch := 60000 },
        staleCache.widgetFiles, false)) :=
  ⟨⟨by decide, by decide, by decide, by decide, by decide, by decide⟩,
   C10_lastFetch_advances_without_match 60000 119999 "<html></html>" (Except.error ())
     staleCache (by decide) (by decide) (by decide) (by decide) (by decide) (by decide)⟩

/-- C8: the widget asset endpoints.  In a state with no discovered
filenames whose inline discovery also finds nothing (fetch throws or the
page carries no asset references), GET /widget.js answers 404 with the
JS-comment placeholder and GET /widget.css answers 404 with the
CSS-comment placeholder.  In a state with both filenames discovered and
the cache age under the TTL, each endpoint answers 200 with the bytes the
asset fetch returns and its Content-Type header (application/javascript
resp. text/css), and issues no discovery fetch. -/
theorem C8_widget_asset_endpoints
    (now : Nat) (f : Except Unit String) (fa : String → Except Unit String)
    (c₀ c₁ : CacheState) (bytesJs bytesCss : String)
    (h0js : c₀.widgetFiles.js = "") (h0css : c₀.widgetFiles.css = "")
    (hf : ∀ html, f = Except.ok html → jsFileMatch html = none ∧ cssFileMatch html = none)
    (h1js : c₁.widgetFiles.js ≠ "") (h1css : c₁.widgetFiles.css ≠ "")
    (hfresh : now - c₁.lastFetch < CACHE_TTL)
    (hjs : fa c₁.widgetFiles.js = Except.ok bytesJs)
    (hcss : fa c₁.widgetFiles.css = Except.ok bytesCss) :
    (widgetJsRoute now f fa c₀).2.1 =
      { status := 404, contentType := none, body := "// Widget JS not found" } ∧
    (widgetCssRoute now f fa c₀).2.1 =
      { status := 404, contentType := none, body := "/* Widget CSS not found */" } ∧
    (widgetJsRoute now f fa c₁).2.1 =
      { status := 200, contentType := some "application/javascript", body := bytesJs } ∧
    (widgetJsRoute now f fa c₁).2.2 = false ∧
    (widgetCssRoute now f fa c₁).2.1 =
      { status := 200, contentType := some "text/css", body := bytesCss } ∧
    (widgetCssRoute now f fa c₁).2.2 = false := by
  have hcond0 : ¬(c₀.widgetFiles.js ≠ "" ∧ c₀.widgetFiles.css ≠ "" ∧
      now - c₀.lastFetch < CACHE_TTL) := by
    rintro ⟨a, _, _⟩; exact a h0js
  have hd0 : (discoverWidgetFiles now f c₀).2.1.js = "" ∧
      (discoverWidgetFiles now f c₀).2.1.css = "" := by
    unfold discoverWidgetFiles
    rw [if_neg hcond0]
    cases f with
    | error e => exact ⟨h0js, h0css⟩
    | ok html =>
        obtain ⟨hj, hc⟩ := hf html rfl
        simp [hj, hc, h0js, h0css]
  have hd1 : discoverWidgetFiles now f c₁ = (c₁, c₁.widgetFiles, false) :=
    discover_cache_hit now f c₁ h1js h1css hfresh
  refine ⟨?_, ?_, ?_, ?_, ?_, ?_⟩
  · simp [widgetJsRoute, hd0.1]
  · simp [widgetCssRoute, hd0.2]
  · simp [widgetJsRoute, hd1, h1js, hjs]
  · simp [widgetJsRoute, hd1, h1js, hjs]
  · simp [widgetCssRoute, hd1, h1css, hcss]
  · simp [widgetCssRoute, hd1, h1css, hcss]

/-- The concrete asset fetch used by the C8 witness. -/
def sampleFetchAsset : String → Except Unit String :=
  fun name =>
    if name = "widget-a1.js" then Except.ok "JSBYTES"
    else if name = "widget-b2.css" then Except.ok "CSSBYTES"
    else Except.error ()

/-- Witness for C8 at concrete inputs: with an empty cache and a throwing
index fetch both endpoints answer 404 placeholders; with freshCache (both
filenames cached 1ms ago) they proxy the asset bytes with the right
Content-Type and no discovery fetch. -/
theorem C8_widget_asset_endpoints_witness :
    (initialCache.widgetFiles.js = "" ∧ initialCache.widgetFiles.css = "" ∧
     freshCache.widgetFiles.js ≠ "" ∧ freshCache.widgetFiles.css ≠ "" ∧
     100001 - freshCache.lastFetch < CACHE_TTL ∧
     sampleFetchAsset freshCache.widgetFiles.js = Except.ok "JSBYTES" ∧
     sampleFetchAsset freshCache.widgetFiles.css = Except.ok "CSSBYTES") ∧
    ((widgetJsRoute 100001 (Except.error ()) sampleFetchAsset initialCache).2.1 =
      { status := 404, contentType := none, body := "// Widget JS not found" } ∧
     (widgetCssRoute 100001 (Except.error ()) sampleFetchAsset initialCache).2.1 =
      { status := 404, contentType := none, body := "/* Widget CSS not found */" } ∧
     (widgetJsRoute 100001 (Except.error ()) sampleFetchAsset freshCache).2.1 =
      { status := 200, contentType := some "application/javascript", body := "JSBYTES" } ∧
     (widgetJsRoute 100001 (Except.error ()) sampleFetchAsset freshCache).2.2 = false ∧
     (widgetCssRoute 100001 (Except.error ()) sampleFetchAsset freshCache).2.1 =
      { status := 200, contentType := some "text/css", body := "CSSBYTES" } ∧
     (widgetCssRoute 100001 (Except.error ()) sampleFetchAsset freshCache).2.2 = false) :=
  ⟨⟨rfl, rfl, by decide, by decide, by decide, rfl, rfl⟩,
   C8_widget_asset_endpoints 100001 (Except.error ()) sampleFetchAsset initialCache freshCache
     "JSBYTES" "CSSBYTES" rfl rfl (fun html h => Except.noConfusion h)
     (by decide) (by decide) (by decide) rfl rfl⟩
